import Mathlib

/-!
Shallow embedding of the hchdb MySQL protocol front end
(`hchdb/protocol/packet.py`, `hchdb/protocol/mysql.py`,
`hchdb/connection/manager.py`) and proofs about it.

Bytes are modelled as natural numbers below 256; byte strings as
`List Nat`.  Python text strings that flow into payloads are converted
with `utf8Bytes` (all strings involved are ASCII, where UTF-8 encoding
is the identity on code points).  The inbound side of the asyncio
socket is modelled as the raw byte sequence the client sends before
closing the connection: `read_packet` consumes it exactly as
`_read_packet` does — including the over-escaped `b'\\x00'` length pad
at mysql.py line 412, which inflates every reconstructed payload
length by four ASCII pad bytes and so demands roughly 1.35e16 payload
bytes per packet — and a stream too short for the pending
`readexactly` models `IncompleteReadError` (the client closed).
Python exceptions are modelled with `Except` / explicit error values;
`bytes.decode('utf-8')` failures are modelled by a byte-level UTF-8
well-formedness check.
-/

namespace HchDB

/-- UTF-8 bytes of a string; all strings appearing in the embedded code
are ASCII, for which the byte sequence is the list of code points. -/
def utf8Bytes (s : String) : List Nat := s.data.map Char.toNat

/-- Little-endian byte list of fixed width `k` for the value `n`
(the low `k` bytes, as produced by `struct.pack` with `<H`, `<I`, `<Q`). -/
def leBytes : Nat → Nat → List Nat
  | 0, _ => []
  | k + 1, n => n % 256 :: leBytes k (n / 256)

/-- Value of a little-endian byte list (as read by `struct.unpack`). -/
def leVal : List Nat → Nat
  | [] => 0
  | b :: bs => b + 256 * leVal bs

theorem leBytes_length (k n : Nat) : (leBytes k n).length = k := by
  induction k generalizing n with
  | zero => rfl
  | succ k ih => simp [leBytes, ih]

theorem leVal_leBytes (k n : Nat) (h : n < 256 ^ k) :
    leVal (leBytes k n) = n := by
  induction k generalizing n with
  | zero =>
    simp only [Nat.pow_zero, Nat.lt_one_iff] at h
    simp [h, leBytes, leVal]
  | succ k ih =>
    have hdiv : n / 256 < 256 ^ k := by
      rw [Nat.div_lt_iff_lt_mul (by norm_num)]
      calc n < 256 ^ (k + 1) := h
        _ = 256 ^ k * 256 := by ring
    simp [leBytes, leVal, ih (n / 256) hdiv, Nat.mod_add_div]

/-- Decimal ASCII rendering of a natural number, as Python's `str(n)`
produces inside f-string interpolations. -/
def decimalBytes (n : Nat) : List Nat :=
  if n = 0 then [48] else ((Nat.digits 10 n).map (· + 48)).reverse

/-- A MySQL protocol packet: payload plus the one-byte sequence id
(`Packet` in `packet.py`; the 3-byte length header is `payload.length`). -/
structure Packet where
  payload : List Nat
  sequence_id : Nat
deriving DecidableEq, Repr

/-! ## Length-encoded integers (`packet.py`) -/

/-- Errors that can escape the packet parser.  `protocolError` models
`ProtocolError` raised explicitly; `structError` models `struct.error`
raised by `struct.unpack` on a short buffer; `unicodeDecodeError`
models `UnicodeDecodeError` raised by `bytes.decode('utf-8')` on bytes
that are not well-formed UTF-8. -/
inductive ParseError where
  | protocolError (msg : List Nat)
  | structError
  | unicodeDecodeError
deriving DecidableEq, Repr

/-- Byte-level model of the success condition of Python's strict
`bytes.decode('utf-8')`: RFC 3629 well-formedness as CPython enforces
it — ASCII below 0x80, two-byte lead bytes 0xC2-0xDF (0xC0/0xC1 are
overlong), three-byte forms excluding overlongs (0xE0 needs 0xA0-0xBF)
and surrogates (0xED capped at 0x9F), four-byte forms excluding
overlongs (0xF0 needs 0x90-0xBF) and capped at U+10FFFF (lead at most
0xF4 with continuation at most 0x8F), continuation bytes 0x80-0xBF. -/
def utf8Decodable : List Nat → Bool
  | [] => true
  | b :: rest =>
    if b < 0x80 then utf8Decodable rest
    else if 0xc2 ≤ b ∧ b ≤ 0xdf then
      match rest with
      | c1 :: rest1 =>
        if 0x80 ≤ c1 ∧ c1 ≤ 0xbf then utf8Decodable rest1 else false
      | [] => false
    else if b = 0xe0 then
      match rest with
      | c1 :: c2 :: rest2 =>
        if (0xa0 ≤ c1 ∧ c1 ≤ 0xbf) ∧ (0x80 ≤ c2 ∧ c2 ≤ 0xbf) then
          utf8Decodable rest2
        else false
      | _ => false
    else if (0xe1 ≤ b ∧ b ≤ 0xec) ∨ b = 0xee ∨ b = 0xef then
      match rest with
      | c1 :: c2 :: rest2 =>
        if (0x80 ≤ c1 ∧ c1 ≤ 0xbf) ∧ (0x80 ≤ c2 ∧ c2 ≤ 0xbf) then
          utf8Decodable rest2
        else false
      | _ => false
    else if b = 0xed then
      match rest with
      | c1 :: c2 :: rest2 =>
        if (0x80 ≤ c1 ∧ c1 ≤ 0x9f) ∧ (0x80 ≤ c2 ∧ c2 ≤ 0xbf) then
          utf8Decodable rest2
        else false
      | _ => false
    else if b = 0xf0 then
      match rest with
      | c1 :: c2 :: c3 :: rest3 =>
        if (0x90 ≤ c1 ∧ c1 ≤ 0xbf) ∧ (0x80 ≤ c2 ∧ c2 ≤ 0xbf)
            ∧ (0x80 ≤ c3 ∧ c3 ≤ 0xbf) then
          utf8Decodable rest3
        else false
      | _ => false
    else if 0xf1 ≤ b ∧ b ≤ 0xf3 then
      match rest with
      | c1 :: c2 :: c3 :: rest3 =>
        if (0x80 ≤ c1 ∧ c1 ≤ 0xbf) ∧ (0x80 ≤ c2 ∧ c2 ≤ 0xbf)
            ∧ (0x80 ≤ c3 ∧ c3 ≤ 0xbf) then
          utf8Decodable rest3
        else false
      | _ => false
    else if b = 0xf4 then
      match rest with
      | c1 :: c2 :: c3 :: rest3 =>
        if (0x80 ≤ c1 ∧ c1 ≤ 0x8f) ∧ (0x80 ≤ c2 ∧ c2 ≤ 0xbf)
            ∧ (0x80 ≤ c3 ∧ c3 ≤ 0xbf) then
          utf8Decodable rest3
        else false
      | _ => false
    else false

/-- `PacketBuilder._encode_length_encoded_int`.  The `0xFD` branch
mirrors the source's `struct.pack` of tag plus a 4-byte integer
truncated to its first 4 bytes (tag plus low 3 value bytes). -/
def encode_length_encoded_int (value : Nat) : List Nat :=
  if value < 251 then [value]
  else if value < 65536 then 0xfc :: leBytes 2 value
  else if value < 16777216 then (0xfd :: leBytes 4 value).take 4
  else 0xfe :: leBytes 8 value

/-- `PacketParser._decode_length_encoded_int`, reading from the front of
a byte stream and returning the value with the unread remainder.
An empty stream returns 0 (the source returns 0 when `read(1)` is
empty); a first byte of 0xFB or 0xFF raises `ProtocolError`; a short
multi-byte read raises `struct.error`.  For the 0xFD tag the source
zero-extends the 3 read bytes to 4 before unpacking, which equals the
little-endian value of the 3 bytes. -/
def decode_length_encoded_int (stream : List Nat) :
    Except ParseError (Nat × List Nat) :=
  match stream with
  | [] => .ok (0, [])
  | value :: rest =>
    if value < 251 then .ok (value, rest)
    else if value = 0xfc then
      if 2 ≤ rest.length then .ok (leVal (rest.take 2), rest.drop 2)
      else .error .structError
    else if value = 0xfd then
      if 3 ≤ rest.length then .ok (leVal (rest.take 3), rest.drop 3)
      else .error .structError
    else if value = 0xfe then
      if 8 ≤ rest.length then .ok (leVal (rest.take 8), rest.drop 8)
      else .error .structError
    else .error (.protocolError
      (utf8Bytes "Invalid length-encoded integer: " ++ decimalBytes value))

/-! ## Null-terminated strings and the handshake-response parser -/

/-- The null-terminated-string read loop used throughout
`PacketParser.parse_handshake_response`: bytes are accumulated until a
`0x00` byte or end of stream (`read(1)` returning empty) — both simply
break the loop.  Returns the accumulated value and the remainder. -/
def readNTS : List Nat → List Nat × List Nat
  | [] => ([], [])
  | b :: rest =>
    if b = 0 then ([], rest)
    else
      let r := readNTS rest
      (b :: r.1, r.2)

/-- The record returned by `PacketParser.parse_handshake_response`.
Text fields are kept as byte lists (the source decodes them as UTF-8
strings; the claims only concern the bytes). -/
structure HandshakeResponse where
  username : List Nat
  auth_data : List Nat
  database : List Nat
  auth_plugin : List Nat
  capabilities : Nat
  max_packet_size : Nat
  charset : Nat
deriving DecidableEq, Repr

/-- The optional trailing fields of a handshake response: `database` is
read iff `CLIENT_CONNECT_WITH_DB (0x8)` is set, `auth_plugin` iff
`CLIENT_PLUGIN_AUTH (0x80000)` is set, each as a null-terminated
string that is then decoded as UTF-8 (a decode failure raises
`UnicodeDecodeError`, the database one before the plugin is read). -/
def finishHandshakeResponse (capabilities max_packet_size charset : Nat)
    (username auth_data s : List Nat) :
    Except ParseError HandshakeResponse :=
  let d := if capabilities &&& 0x00000008 ≠ 0 then readNTS s else ([], s)
  if capabilities &&& 0x00000008 ≠ 0 ∧ utf8Decodable d.1 = false then
    .error .unicodeDecodeError
  else
    let p := if capabilities &&& 0x00080000 ≠ 0 then readNTS d.2 else ([], d.2)
    if capabilities &&& 0x00080000 ≠ 0 ∧ utf8Decodable p.1 = false then
      .error .unicodeDecodeError
    else
      .ok { username := username, auth_data := auth_data, database := d.1,
            auth_plugin := p.1, capabilities := capabilities,
            max_packet_size := max_packet_size, charset := charset }

/-- `PacketParser.parse_handshake_response`.  A payload shorter than 4
bytes raises `ProtocolError`; after that, fixed-width reads that hit
end of payload raise `struct.error`; the 23 reserved bytes and all
null-terminated fields tolerate truncation.  The username bytes are
decoded as UTF-8 immediately after the read loop (before any auth
data is read); a decode failure raises `UnicodeDecodeError`.
`auth_data` is read length-encoded iff
`CLIENT_PLUGIN_AUTH_LENENC_CLIENT_DATA (0x200000)` is set, else as a
null-terminated string, and is never decoded. -/
def parse_handshake_response (payload : List Nat) :
    Except ParseError HandshakeResponse :=
  match payload with
  | c0 :: c1 :: c2 :: c3 :: r1 =>
    let capabilities := leVal [c0, c1, c2, c3]
    match r1 with
    | m0 :: m1 :: m2 :: m3 :: r2 =>
      let max_packet_size := leVal [m0, m1, m2, m3]
      match r2 with
      | charset :: r3 =>
        let s := r3.drop 23
        let u := readNTS s
        if utf8Decodable u.1 then
          if capabilities &&& 0x00200000 ≠ 0 then
            match decode_length_encoded_int u.2 with
            | .error e => .error e
            | .ok (auth_len, s2) =>
              let auth_data := if 0 < auth_len then s2.take auth_len else []
              let s3 := if 0 < auth_len then s2.drop auth_len else s2
              finishHandshakeResponse capabilities max_packet_size
                charset u.1 auth_data s3
          else
            let a := readNTS u.2
            finishHandshakeResponse capabilities max_packet_size
              charset u.1 a.1 a.2
        else .error .unicodeDecodeError
      | [] => .error .structError
    | _ => .error .structError
  | _ => .error (.protocolError (utf8Bytes "Invalid handshake response packet"))

/-- `PacketParser.parse_query`: the first payload byte must be
`COM_QUERY (0x03)`; the remainder, decoded as UTF-8, is the statement
text (a decode failure raises `UnicodeDecodeError`). -/
def parse_query (payload : List Nat) : Except ParseError (List Nat) :=
  match payload with
  | [] => .error (.protocolError (utf8Bytes "Invalid query packet"))
  | c :: rest =>
    if c = 3 then
      if utf8Decodable rest then .ok rest else .error .unicodeDecodeError
    else .error (.protocolError (utf8Bytes "Not a query packet: " ++ decimalBytes c))

/-! ## Authentication (`mysql.py`) -/

/-- Lookup in the configured `authentication.users` registry
(usernames as byte strings, values the configured `password`). -/
def lookupUser (users : List (List Nat × List Nat)) (name : List Nat) :
    Option (List Nat) :=
  match users with
  | [] => none
  | (u, pw) :: rest => if u = name then some pw else lookupUser rest name

/-- `MySQLProtocolHandler._authenticate_user`.  Unknown users are
rejected; a configured user with empty password is accepted; for a
configured user with a non-empty password the source returns `True`
without ever comparing `auth_data` against the expected challenge
response (its own comment marks the check as a TODO). -/
def authenticate_user (users : List (List Nat × List Nat))
    (username auth_data : List Nat) : Bool :=
  match lookupUser users username with
  | none => false
  | some expected_password =>
    if expected_password = [] then true
    else true

/-! ## Packet builders (`PacketBuilder`) -/

/-- `PacketBuilder.next_sequence_id`: returns the current counter and
post-increments it mod 256. -/
def next_sequence_id (seq : Nat) : Nat × Nat := (seq, (seq + 1) % 256)

/-- The low 16 capability bits advertised in the handshake
(`capabilities_low` in `build_handshake`). -/
def capabilities_low : Nat :=
  0x0001 ||| 0x0002 ||| 0x0004 ||| 0x0008 ||| 0x0010 ||| 0x0020 |||
  0x0040 ||| 0x0080 ||| 0x0100 ||| 0x0200 ||| 0x0400 ||| 0x0800 |||
  0x1000 ||| 0x2000 ||| 0x4000 ||| 0x8000

/-- The high 16 capability bits advertised in the handshake
(`capabilities_high` in `build_handshake`). -/
def capabilities_high : Nat :=
  0x0001 ||| 0x0002 ||| 0x0004 ||| 0x0008 ||| 0x0010 ||| 0x0020 |||
  0x0040 ||| 0x0080 ||| 0x0100

/-- The default value of `build_handshake`'s `auth_plugin` parameter;
`_send_handshake` does not override it. -/
def default_auth_plugin : String := "mysql_native_password"

/-- `PacketBuilder.build_handshake`: protocol byte 10, server version
cstring, u32 connection id, 8-byte seed part 1 plus separator, low
capabilities, charset 33, status flags 2, high capabilities, auth
plugin data length 21, 10 reserved zeros, 12-byte seed part 2 plus
terminator, auth plugin cstring.  Takes and returns the builder's
sequence counter. -/
def build_handshake (server_version : String) (connection_id : Nat)
    (auth_plugin : String) (seq : Nat) : Packet × Nat :=
  let payload :=
    [10] ++ (utf8Bytes server_version ++ [0]) ++ leBytes 4 connection_id
      ++ utf8Bytes "12345678" ++ [0]
      ++ leBytes 2 capabilities_low ++ [33] ++ leBytes 2 2
      ++ leBytes 2 capabilities_high ++ [21] ++ List.replicate 10 0
      ++ (utf8Bytes "901234567890" ++ [0]) ++ (utf8Bytes auth_plugin ++ [0])
  let s := next_sequence_id seq
  ({ payload := payload, sequence_id := s.1 }, s.2)

/-- `PacketBuilder.build_ok`: marker 0x00, LEI affected rows, LEI last
insert id, u16 status flags, u16 warnings, optional info bytes. -/
def build_ok (affected_rows last_insert_id status_flags warnings : Nat)
    (info : List Nat) (seq : Nat) : Packet × Nat :=
  let payload := [0] ++ encode_length_encoded_int affected_rows
    ++ encode_length_encoded_int last_insert_id
    ++ leBytes 2 status_flags ++ leBytes 2 warnings ++ info
  let s := next_sequence_id seq
  ({ payload := payload, sequence_id := s.1 }, s.2)

/-- `PacketBuilder.build_error`: marker 0xFF, u16 error code, the
marker byte 0x23, the SQL state bytes, the message bytes. -/
def build_error (error_code : Nat) (error_message sql_state : List Nat)
    (seq : Nat) : Packet × Nat :=
  let payload := [0xff] ++ leBytes 2 error_code ++ [0x23]
    ++ sql_state ++ error_message
  let s := next_sequence_id seq
  ({ payload := payload, sequence_id := s.1 }, s.2)

/-- `PacketBuilder.build_eof`: marker 0xFE, u16 warnings, u16 status
flags. -/
def build_eof (warnings status_flags : Nat) (seq : Nat) : Packet × Nat :=
  let payload := [0xfe] ++ leBytes 2 warnings ++ leBytes 2 status_flags
  let s := next_sequence_id seq
  ({ payload := payload, sequence_id := s.1 }, s.2)

/-! ## Session model (`MySQLProtocolHandler`)

The handler's socket writes are collected into a `List Packet`; its
socket reads are modelled by consuming a list of inbound packet
payloads (an exhausted list is `_read_packet` returning `None`, i.e.
the client closed).  No external `query_handler` is installed, so
`_handle_query` always takes its fallback branch, as in the claims. -/

/-- The configuration values the handler reads via `get_config()`. -/
structure Config where
  server_version : String
  max_connections : Nat
  users : List (List Nat × List Nat)

/-- The handler's per-connection mutable state: the builder's sequence
counter and the fields set during authentication. -/
structure SessionSt where
  seq : Nat
  authenticated : Bool
  username : List Nat
  database : List Nat
  client_capabilities : Nat
deriving DecidableEq, Repr

/-- Byte-wise model of Python `str.upper()` for ASCII text. -/
def pyUpper (s : List Nat) : List Nat :=
  s.map (fun b => if 97 ≤ b ∧ b ≤ 122 then b - 32 else b)

/-- Python whitespace as stripped by `str.strip()`. -/
def isSpaceByte (b : Nat) : Bool :=
  b = 32 || b = 9 || b = 10 || b = 13 || b = 11 || b = 12

/-- Byte-wise model of Python `str.strip()`. -/
def pyStrip (s : List Nat) : List Nat :=
  ((s.dropWhile isSpaceByte).reverse.dropWhile isSpaceByte).reverse

/-- Python's `needle in hay` substring test on byte strings. -/
def containsBytes (needle hay : List Nat) : Bool :=
  (List.range (hay.length + 1)).any fun i => needle.isPrefixOf (hay.drop i)

/-- `_send_error`: builds an ERR packet with SQL state `HY000` (the
value every `_send_error` call site uses) and records it as written. -/
def send_error (st : SessionSt) (code : Nat) (msg : List Nat) :
    List Packet × SessionSt :=
  let r := build_error code msg (utf8Bytes "HY000") st.seq
  ([r.1], { st with seq := r.2 })

/-- `_send_select_result`: the mock one-column result for `SELECT`.
The source's over-escaped bytes literals (`b'\\x01'` and friends)
denote the literal backslash-escape text, reproduced here with Lean's
doubled backslashes. -/
def send_select_result (st : SessionSt) (query : List Nat) :
    List Packet × SessionSt :=
  let c := next_sequence_id st.seq
  let countP : Packet := { payload := utf8Bytes "\\x01", sequence_id := c.1 }
  let field_def := utf8Bytes
    ("def\\x00hchdb\\x00demo\\x00demo\\x00message\\x00message\\x00"
      ++ "\\x0c\\x21\\x00\\x14\\x00\\x00\\x00\\xfd\\x00\\x00\\x00\\x00\\x00")
  let f := next_sequence_id c.2
  let fieldP : Packet := { payload := field_def, sequence_id := f.1 }
  let e1 := build_eof 0 2 f.2
  let message := utf8Bytes "Hello from HchDB! Query: "
    ++ query.take 50 ++ utf8Bytes "..."
  let r := next_sequence_id e1.2
  let rowP : Packet := { payload := message.length :: message, sequence_id := r.1 }
  let e2 := build_eof 0 2 r.2
  ([countP, fieldP, e1.1, rowP, e2.1], { st with seq := e2.2 })

/-- `_send_databases_result`: the mock `SHOW DATABASES` result (column
count, one column definition, EOF, three rows, EOF).  The column-count
payload is the source's over-escaped `b'\\x01'` — the four ASCII bytes
of the text backslash-x-0-1 — and the column definition is likewise an
over-escaped literal containing `SCHEMA_NAME`. -/
def send_databases_result (st : SessionSt) : List Packet × SessionSt :=
  let databases := [utf8Bytes "information_schema", utf8Bytes "hchdb",
    utf8Bytes "test"]
  let c := next_sequence_id st.seq
  let countP : Packet := { payload := utf8Bytes "\\x01", sequence_id := c.1 }
  let field_def := utf8Bytes
    ("def\\x00information_schema\\x00SCHEMATA\\x00SCHEMATA\\x00"
      ++ "SCHEMA_NAME\\x00SCHEMA_NAME\\x00\\x0c!\\x00\\x00\\x02\\x00\\x00"
      ++ "\\xfd\\x01\\x00\\x1f\\x00\\x00")
  let f := next_sequence_id c.2
  let fieldP : Packet := { payload := field_def, sequence_id := f.1 }
  let e1 := build_eof 0 2 f.2
  let r1 := next_sequence_id e1.2
  let row1 : Packet :=
    { payload := (databases.get! 0).length :: databases.get! 0, sequence_id := r1.1 }
  let r2 := next_sequence_id r1.2
  let row2 : Packet :=
    { payload := (databases.get! 1).length :: databases.get! 1, sequence_id := r2.1 }
  let r3 := next_sequence_id r2.2
  let row3 : Packet :=
    { payload := (databases.get! 2).length :: databases.get! 2, sequence_id := r3.1 }
  let e2 := build_eof 0 2 r3.2
  ([countP, fieldP, e1.1, row1, row2, row3, e2.1], { st with seq := e2.2 })

/-- `_send_tables_result`: the mock `SHOW TABLES` result with rows
`users`, `orders`, `products`. -/
def send_tables_result (st : SessionSt) : List Packet × SessionSt :=
  let dbname := if st.database = [] then utf8Bytes "hchdb" else st.database
  let table_name := utf8Bytes "Tables_in_" ++ dbname
  let c := next_sequence_id st.seq
  let countP : Packet := { payload := utf8Bytes "\\x01", sequence_id := c.1 }
  let field_def := utf8Bytes "def\\x00" ++ dbname ++ utf8Bytes "\\x00\\x00\\x00"
    ++ table_name ++ utf8Bytes "\\x00" ++ table_name ++ utf8Bytes "\\x00"
    ++ utf8Bytes "\\x0c!\\x00\\x00\\x02\\x00\\x00\\xfd\\x01\\x00\\x1f\\x00\\x00"
  let f := next_sequence_id c.2
  let fieldP : Packet := { payload := field_def, sequence_id := f.1 }
  let e1 := build_eof 0 2 f.2
  let t1 := utf8Bytes "users"
  let t2 := utf8Bytes "orders"
  let t3 := utf8Bytes "products"
  let r1 := next_sequence_id e1.2
  let row1 : Packet := { payload := t1.length :: t1, sequence_id := r1.1 }
  let r2 := next_sequence_id r1.2
  let row2 : Packet := { payload := t2.length :: t2, sequence_id := r2.1 }
  let r3 := next_sequence_id r2.2
  let row3 : Packet := { payload := t3.length :: t3, sequence_id := r3.1 }
  let e2 := build_eof 0 2 r3.2
  ([countP, fieldP, e1.1, row1, row2, row3, e2.1], { st with seq := e2.2 })

/-- `_send_variables_result`: the mock two-column variables result. -/
def send_variables_result (cfg : Config) (st : SessionSt) :
    List Packet × SessionSt :=
  let varList := [(utf8Bytes "version", utf8Bytes cfg.server_version),
    (utf8Bytes "version_comment", utf8Bytes "HchDB distributed database"),
    (utf8Bytes "max_connections", decimalBytes cfg.max_connections)]
  let c := next_sequence_id st.seq
  let countP : Packet := { payload := utf8Bytes "\\x02", sequence_id := c.1 }
  let fd1 := utf8Bytes ("def\\x00\\x00\\x00\\x00Variable_name\\x00Variable_name\\x00"
    ++ "\\x0c!\\x00\\x00\\x02\\x00\\x00\\xfd\\x01\\x00\\x1f\\x00\\x00")
  let f1 := next_sequence_id c.2
  let fieldP1 : Packet := { payload := fd1, sequence_id := f1.1 }
  let fd2 := utf8Bytes ("def\\x00\\x00\\x00\\x00Value\\x00Value\\x00"
    ++ "\\x0c!\\x00\\x00\\x02\\x00\\x00\\xfd\\x01\\x00\\x1f\\x00\\x00")
  let f2 := next_sequence_id f1.2
  let fieldP2 : Packet := { payload := fd2, sequence_id := f2.1 }
  let e1 := build_eof 0 2 f2.2
  let rowPayload := fun (p : List Nat × List Nat) =>
    p.1.length :: p.1 ++ p.2.length :: p.2
  let r1 := next_sequence_id e1.2
  let row1 : Packet := { payload := rowPayload (varList.get! 0), sequence_id := r1.1 }
  let r2 := next_sequence_id r1.2
  let row2 : Packet := { payload := rowPayload (varList.get! 1), sequence_id := r2.1 }
  let r3 := next_sequence_id r2.2
  let row3 : Packet := { payload := rowPayload (varList.get! 2), sequence_id := r3.1 }
  let e2 := build_eof 0 2 r3.2
  ([countP, fieldP1, fieldP2, e1.1, row1, row2, row3, e2.1],
    { st with seq := e2.2 })

/-- `_send_show_result`: dispatch on the upper-cased, stripped query by
substring containment, in source order. -/
def send_show_result (cfg : Config) (st : SessionSt) (query : List Nat) :
    List Packet × SessionSt :=
  let query_upper := pyStrip (pyUpper query)
  if containsBytes (utf8Bytes "DATABASES") query_upper then
    send_databases_result st
  else if containsBytes (utf8Bytes "TABLES") query_upper then
    send_tables_result st
  else if containsBytes (utf8Bytes "VERSION") query_upper
      || containsBytes (utf8Bytes "VARIABLES") query_upper then
    send_variables_result cfg st
  else
    let e := build_eof 0 2 st.seq
    ([e.1], { st with seq := e.2 })

/-- `_send_simple_result`: the fallback query responder, dispatching on
the leading keyword of the upper-cased, stripped query. -/
def send_simple_result (cfg : Config) (st : SessionSt) (query : List Nat) :
    List Packet × SessionSt :=
  let query_upper := pyStrip (pyUpper query)
  if (utf8Bytes "SELECT").isPrefixOf query_upper then
    send_select_result st query
  else if (utf8Bytes "INSERT").isPrefixOf query_upper
      || (utf8Bytes "UPDATE").isPrefixOf query_upper
      || (utf8Bytes "DELETE").isPrefixOf query_upper then
    let r := build_ok 1 0 2 0 [] st.seq
    ([r.1], { st with seq := r.2 })
  else if (utf8Bytes "SHOW").isPrefixOf query_upper then
    send_show_result cfg st query
  else
    let r := build_ok 0 0 2 0 [] st.seq
    ([r.1], { st with seq := r.2 })

/-- The exceptions that propagate inside the session, with the message
bytes they carry.  `HchDBError.__str__` prefixes the class's fixed
error code, which `rendered` reproduces; the detail text of a
`UnicodeDecodeError` (offending byte and position) is abstracted to a
fixed placeholder, which no claim depends on. -/
inductive SessionError where
  | protocolError (msg : List Nat)
  | authenticationError (msg : List Nat)
  | unicodeDecodeError
deriving DecidableEq, Repr

/-- Python `str(e)` for a `SessionError`: `ProtocolError` renders with
its default code 1001, `AuthenticationError` with 1003. -/
def SessionError.rendered : SessionError → List Nat
  | .protocolError m => utf8Bytes "[1001] " ++ m
  | .authenticationError m => utf8Bytes "[1003] " ++ m
  | .unicodeDecodeError => utf8Bytes "UnicodeDecodeError"

/-- Rendering of a caught `ParseError` inside an error message
(`str(e)` of the exception the parser raised). -/
def ParseError.rendered : ParseError → List Nat
  | .protocolError m => utf8Bytes "[1001] " ++ m
  | .structError => utf8Bytes "struct.error"
  | .unicodeDecodeError => utf8Bytes "UnicodeDecodeError"

/-- `_handle_query` with no external query handler installed: parse the
query; any exception there is caught and answered with ERR 1064
rendering the caught exception's text; otherwise run the fallback
responder. -/
def handle_query (cfg : Config) (st : SessionSt) (payload : List Nat) :
    List Packet × SessionSt :=
  match parse_query payload with
  | .error e => send_error st 1064 (utf8Bytes "Query error: " ++ e.rendered)
  | .ok query => send_simple_result cfg st query

/-- `_handle_init_db`: a `COM_INIT_DB` payload shorter than 2 bytes is
an error; otherwise the remainder is decoded as UTF-8 — a decode
failure raises `UnicodeDecodeError`, which escapes `_handle_init_db`
uncaught (the third component) for the command loop's handler — and on
success the session's database is replaced and an OK packet is sent. -/
def handle_init_db (st : SessionSt) (payload : List Nat) :
    List Packet × SessionSt × Option SessionError :=
  if payload.length < 2 then
    let e := send_error st 1064 (utf8Bytes "Invalid USE command")
    (e.1, e.2, none)
  else
    if utf8Decodable (payload.drop 1) then
      let st' := { st with database := payload.drop 1 }
      let r := build_ok 0 0 2 0 [] st'.seq
      ([r.1], { st' with seq := r.2 }, none)
    else ([], st, some .unicodeDecodeError)

/-- `_process_command`: dispatch on the first payload byte.  `COM_QUIT`
returns with no write and no state change; an empty payload is ERR
1064; an unrecognized byte is ERR 1047.  The third component is the
exception escaping the dispatch, if any (only `_handle_init_db`'s
decode can raise; `_handle_query` catches its own). -/
def process_command (cfg : Config) (st : SessionSt) (payload : List Nat) :
    List Packet × SessionSt × Option SessionError :=
  match payload with
  | [] =>
    let e := send_error st 1064 (utf8Bytes "Empty command packet")
    (e.1, e.2, none)
  | command :: _ =>
    if command = 0x01 then ([], st, none)
    else if command = 0x03 then
      let q := handle_query cfg st payload
      (q.1, q.2, none)
    else if command = 0x0e then
      let r := build_ok 0 0 2 0 [] st.seq
      ([r.1], { st with seq := r.2 }, none)
    else if command = 0x02 then handle_init_db st payload
    else if command = 0x04 then
      let r := build_eof 0 2 st.seq
      ([r.1], { st with seq := r.2 }, none)
    else
      let e := send_error st 1047
        (utf8Bytes "Unknown command: " ++ decimalBytes command)
      (e.1, e.2, none)

/-- The payload length `_read_packet` reconstructs from the 3 length
bytes of a header: the source pads them with the over-escaped
`b'\\x00'` — the four ASCII bytes 92, 120, 48, 48, not a single zero
byte — so the little-endian value gains the pad bytes at positions 3-6
and is at least 92 * 2^24 + 120 * 2^32 + 48 * 2^40 + 48 * 2^48
(13564092379824128) regardless of the header. -/
def paddedLen (b0 b1 b2 : Nat) : Nat :=
  leVal ([b0, b1, b2] ++ utf8Bytes "\\x00")

/-- `_read_packet` on the raw bytes the client sends before closing:
read the 4 header bytes exactly, reconstruct the (over-padded) payload
length, then read exactly that many payload bytes; a stream exhausted
before either `readexactly` completes is `IncompleteReadError` → the
source returns `None`.  Returns the packet and the unconsumed bytes. -/
def read_packet (stream : List Nat) : Option (Packet × List Nat) :=
  match stream with
  | b0 :: b1 :: b2 :: b3 :: rest =>
    let length := paddedLen b0 b1 b2
    if 0 < length then
      if length ≤ rest.length then
        some ({ payload := rest.take length, sequence_id := b3 },
          rest.drop length)
      else none
    else some ({ payload := [], sequence_id := b3 }, rest)
  | _ => none

theorem read_packet_length_lt (stream : List Nat) (pr : Packet × List Nat)
    (h : read_packet stream = some pr) : pr.2.length < stream.length := by
  match stream with
  | [] => simp [read_packet] at h
  | [b0] => simp [read_packet] at h
  | [b0, b1] => simp [read_packet] at h
  | [b0, b1, b2] => simp [read_packet] at h
  | b0 :: b1 :: b2 :: b3 :: rest =>
    simp only [read_packet] at h
    split_ifs at h
    · cases h
      simp only [List.length_drop, List.length_cons]
      omega
    · cases h
      simp only [List.length_cons]
      omega

/-- `_handle_commands`: the command loop.  Each iteration reads the
next inbound packet from the remaining client bytes and processes it;
an exception escaping `_process_command` is caught in the loop, which
sends ERR 1105 and continues; the loop exits only when the read
returns `None`.  Processing a command — including `COM_QUIT` — returns
to the top of the loop. -/
def handle_commands (cfg : Config) (st : SessionSt) (stream : List Nat) :
    List Packet × SessionSt :=
  match h : read_packet stream with
  | none => ([], st)
  | some pr =>
    let step := process_command cfg st pr.1.payload
    let afterErr :=
      match step.2.2 with
      | none => (step.1, step.2.1)
      | some e =>
        let er := send_error step.2.1 1105
          (utf8Bytes "Internal error: " ++ e.rendered)
        (step.1 ++ er.1, er.2)
    let tail := handle_commands cfg afterErr.2 pr.2
    (afterErr.1 ++ tail.1, tail.2)
termination_by stream.length
decreasing_by
  exact read_packet_length_lt stream pr h

/-- `_handle_authentication`: read the handshake response from the raw
client bytes (no packet → `ProtocolError`), parse it (failure →
`ProtocolError`), record the client's fields, authenticate; on failure
send ERR 1045 `Access denied for user '<u>'` and raise
`AuthenticationError`; on success send an OK packet and mark the
session authenticated.  Returns the packets written, the resulting
state, the unconsumed client bytes, and the raised exception if
any. -/
def handle_authentication (cfg : Config) (st : SessionSt)
    (stream : List Nat) :
    List Packet × SessionSt × List Nat × Option SessionError :=
  match read_packet stream with
  | none => ([], st, [],
      some (.protocolError (utf8Bytes "No authentication packet received")))
  | some pr =>
    match parse_handshake_response pr.1.payload with
    | .error e => ([], st, pr.2, some (.protocolError
        (utf8Bytes "Failed to parse authentication packet: " ++ e.rendered)))
    | .ok r =>
      let st1 := { st with
          username := r.username,
          database := r.database,
          client_capabilities := r.capabilities }
      if authenticate_user cfg.users r.username r.auth_data then
        let okP := build_ok 0 0 2 0 [] st1.seq
        ([okP.1], { st1 with seq := okP.2, authenticated := true },
          pr.2, none)
      else
        let errP := build_error 1045
          (utf8Bytes "Access denied for user '" ++ r.username ++ [39])
          (utf8Bytes "HY000") st1.seq
        ([errP.1], { st1 with seq := errP.2 }, pr.2,
          some (.authenticationError
            (utf8Bytes "Authentication failed for user: " ++ r.username)))

/-- `handle_connection`: send the handshake (with the default auth
plugin), run authentication, then the command loop; any exception that
escapes is caught and answered with ERR 1105 `Internal error: <str(e)>`
before the connection is closed.  The argument is the raw byte
sequence the client sends before closing; the result is every packet
the server writes on the connection, in order. -/
def handle_connection (cfg : Config) (connection_id : Nat)
    (stream : List Nat) : List Packet :=
  let st0 : SessionSt :=
    { seq := 0,
      authenticated := false,
      username := [],
      database := [],
      client_capabilities := 0 }
  let hs := build_handshake cfg.server_version connection_id
    default_auth_plugin st0.seq
  let st1 := { st0 with seq := hs.2 }
  match handle_authentication cfg st1 stream with
  | (authP, st2, rest, none) =>
    let cmd := handle_commands cfg st2 rest
    hs.1 :: (authP ++ cmd.1)
  | (authP, st2, _, some e) =>
    let errP := build_error 1105
      (utf8Bytes "Internal error: " ++ e.rendered)
      (utf8Bytes "HY000") st2.seq
    hs.1 :: (authP ++ [errP.1])

/-! ## Connection manager (`connection/manager.py`)

The admission decision and the connection registry are synchronous;
socket handling and time are abstracted.  `handle_new_connection`
returns the new manager state together with `some id` when a protocol
handler was spawned for the admitted socket (the spawned handler is
what later writes the handshake packet) and `none` when the socket was
closed at admission with nothing written. -/

/-- The fields of `ConnectionInfo` the claims touch (peer address and
timestamps are abstracted away). -/
structure ConnectionInfo where
  connection_id : Nat
  username : List Nat
  database : List Nat
  query_count : Nat
deriving DecidableEq, Repr

/-- The mutable state of `ConnectionManager`. -/
structure ManagerState where
  connections : List (Nat × ConnectionInfo)
  next_connection_id : Nat
  total_connections : Nat
  rejected_connections : Nat
  max_connections : Nat
deriving DecidableEq, Repr

/-- The manager state right after `ConnectionManager.__init__` with the
configured maximum. -/
def initManager (maxConn : Nat) : ManagerState :=
  { connections := [],
    next_connection_id := 1,
    total_connections := 0,
    rejected_connections := 0,
    max_connections := maxConn }

/-- `ConnectionManager.handle_new_connection`: if the tracked
connection count has reached `max_connections`, increment the rejected
counter and close the socket (no handler is created, so no handshake is
ever written); otherwise allocate the next id, register a fresh
`ConnectionInfo`, bump the totals and spawn the handler. -/
def handle_new_connection (st : ManagerState) :
    ManagerState × Option Nat :=
  if st.max_connections ≤ st.connections.length then
    ({ st with rejected_connections := st.rejected_connections + 1 }, none)
  else
    let cid := st.next_connection_id
    let info : ConnectionInfo :=
      { connection_id := cid, username := [], database := [], query_count := 0 }
    ({ st with
        connections := st.connections ++ [(cid, info)],
        next_connection_id := cid + 1,
        total_connections := st.total_connections + 1 }, some cid)

/-- `ConnectionManager._cleanup_connection`: remove the entry for the
given id from the registry (a no-op when absent). -/
def cleanup_connection (st : ManagerState) (cid : Nat) : ManagerState :=
  { st with connections := st.connections.filter (fun p => p.1 ≠ cid) }

/-- The manager-level events the claims quantify over: a socket
arriving and a session terminating (or being idle-reaped, which goes
through the same cleanup path). -/
inductive ManagerEvent where
  | connect
  | disconnect (cid : Nat)
deriving DecidableEq, Repr

/-- One manager transition. -/
def managerStep (st : ManagerState) : ManagerEvent → ManagerState
  | .connect => (handle_new_connection st).1
  | .disconnect cid => cleanup_connection st cid

/-- The manager state after a sequence of events from startup. -/
def runManager (maxConn : Nat) (events : List ManagerEvent) : ManagerState :=
  events.foldl managerStep (initManager maxConn)

/-! ## Shared lemmas and concrete scenario inputs -/

theorem readNTS_no_zero (u : List Nat) (h : 0 ∉ u) : readNTS u = (u, []) := by
  induction u with
  | nil => rfl
  | cons b rest ih =>
    simp only [List.mem_cons, not_or] at h
    have hb : ¬b = 0 := fun hb => h.1 hb.symm
    simp [readNTS, hb, ih h.2]

theorem readNTS_append_zero (a t : List Nat) (h : 0 ∉ a) :
    readNTS (a ++ 0 :: t) = (a, t) := by
  induction a with
  | nil => simp [readNTS]
  | cons b rest ih =>
    simp only [List.mem_cons, not_or] at h
    have hb : ¬b = 0 := fun hb => h.1 hb.symm
    simp [readNTS, hb, ih h.2]

theorem utf8Bytes_append (a b : String) :
    utf8Bytes (a ++ b) = utf8Bytes a ++ utf8Bytes b := by
  simp [utf8Bytes]

/-- Whether a parse outcome is a raised `ProtocolError`. -/
def isProtocolError {α : Type} : Except ParseError α → Bool
  | .error (.protocolError _) => true
  | _ => false

/-- A configuration with one configured user `root` with an empty
password (the case exercised by the end-to-end scenarios). -/
def rootConfig : Config :=
  { server_version := "8.0.0-hchdb",
    max_connections := 1000,
    users := [(utf8Bytes "root", [])] }

/-- A configuration whose users registry is empty, so that every
authentication attempt fails. -/
def noUsersConfig : Config :=
  { server_version := "8.0.0-hchdb",
    max_connections := 1000,
    users := [] }

/-- A well-formed handshake-response payload for user `root` with no
capability flags: 4 capability bytes, 4 max-packet-size bytes, charset
33, 23 reserved bytes, the null-terminated username. -/
def rootHSR : List Nat :=
  [0, 0, 0, 0, 0, 0, 0, 0, 33] ++ List.replicate 23 0 ++ utf8Bytes "root" ++ [0]

/-- A handshake-response payload whose username field reaches end of
payload (bytes `AB`) before any 0x00 terminator. -/
def truncatedHSR : List Nat :=
  [0, 0, 0, 0, 0, 0, 0, 0, 33] ++ List.replicate 23 0 ++ [65, 66]

/-- A handshake-response payload advertising
`CLIENT_PLUGIN_AUTH_LENENC_CLIENT_DATA (0x200000)` whose length-encoded
auth-data length field is the NULL tag 0xFB. -/
def lenencNullAuthLen : List Nat :=
  [0, 0, 32, 0, 0, 0, 0, 0, 33] ++ List.replicate 23 0 ++ [0] ++ [0xfb]

/-- The session state after a successful authentication exchange
(handshake consumed sequence 0, the auth OK consumed sequence 1). -/
def readyState : SessionSt :=
  { seq := 2, authenticated := true, username := utf8Bytes "root",
    database := [], client_capabilities := 0 }

/-! ## Claim theorems -/

/-- C1: the three-case default-authentication rule.  The first two
cases hold, but the third fails on the code: for a configured user with
the non-empty password `secret`, `_authenticate_user` accepts the
supplied `auth_data` `wrong` — which is not the expected challenge
response — because the source returns `True` without ever comparing
`auth_data` (its own TODO comment documents the missing check).  This
theorem evaluates the embedding at that failing input. -/
theorem authenticate_user_accepts_any_auth_data :
    authenticate_user [(utf8Bytes "alice", utf8Bytes "secret")]
      (utf8Bytes "alice") (utf8Bytes "wrong") = true
    ∧ utf8Bytes "secret" ≠ []
    ∧ utf8Bytes "wrong" ≠ utf8Bytes "secret" := by decide

/-- C6: decoding the length-encoded-integer encoding of any value
representable in 64 bits yields the value back with nothing left over,
and the encoding is the minimum-length form: one bare byte below 251,
tag 0xFC plus 2 little-endian bytes below 65536, tag 0xFD plus 3 bytes
below 16777216, tag 0xFE plus 8 bytes otherwise. -/
theorem lei_roundtrip_minimal (v : Nat) (h : v < 2 ^ 64) :
    decode_length_encoded_int (encode_length_encoded_int v) = .ok (v, [])
    ∧ (v < 251 → encode_length_encoded_int v = [v])
    ∧ (251 ≤ v → v < 65536 → encode_length_encoded_int v = 0xfc :: leBytes 2 v
        ∧ (encode_length_encoded_int v).length = 3)
    ∧ (65536 ≤ v → v < 16777216 →
        encode_length_encoded_int v = 0xfd :: leBytes 3 v
        ∧ (encode_length_encoded_int v).length = 4)
    ∧ (16777216 ≤ v → encode_length_encoded_int v = 0xfe :: leBytes 8 v
        ∧ (encode_length_encoded_int v).length = 9) := by
  by_cases h1 : v < 251
  · refine ⟨?_, fun _ => ?_, ?_, ?_, ?_⟩ <;>
      simp [encode_length_encoded_int, decode_length_encoded_int, h1] <;> omega
  · by_cases h2 : v < 65536
    · refine ⟨?_, fun hc => absurd hc h1, ?_, ?_, ?_⟩ <;>
        simp [encode_length_encoded_int, decode_length_encoded_int, leBytes,
          leVal, h1, h2] <;> omega
    · by_cases h3 : v < 16777216
      · refine ⟨?_, fun hc => absurd hc h1, fun _ hc => absurd hc h2, ?_, ?_⟩ <;>
          simp [encode_length_encoded_int, decode_length_encoded_int, leBytes,
            leVal, h1, h2, h3] <;> omega
      · refine ⟨?_, fun hc => absurd hc h1, fun _ hc => absurd hc h2,
          fun _ hc => absurd hc h3, ?_⟩ <;>
          simp [encode_length_encoded_int, decode_length_encoded_int, leBytes,
            leVal, h1, h2, h3] <;> omega

/-- Witness for C6 at the concrete value 70000 (the 0xFD form). -/
theorem lei_roundtrip_minimal_witness :
    decode_length_encoded_int (encode_length_encoded_int 70000) = .ok (70000, [])
    ∧ encode_length_encoded_int 70000 = 0xfd :: leBytes 3 70000 :=
  ⟨(lei_roundtrip_minimal 70000 (by norm_num)).1,
    ((lei_roundtrip_minimal 70000 (by norm_num)).2.2.2.1 (by norm_num)
      (by norm_num)).1⟩

/-- C10: a stream whose first byte is the NULL tag 0xFB or the reserved
tag 0xFF makes `_decode_length_encoded_int` raise `ProtocolError`
instead of returning a value; in particular a handshake response whose
length-encoded auth-data length field is 0xFB is rejected by
`parse_handshake_response`. -/
theorem lei_decode_rejects_null_and_reserved (rest : List Nat) :
    isProtocolError (decode_length_encoded_int (0xfb :: rest)) = true
    ∧ isProtocolError (decode_length_encoded_int (0xff :: rest)) = true
    ∧ isProtocolError (parse_handshake_response lenencNullAuthLen) = true := by
  refine ⟨?_, ?_, by decide⟩ <;>
    simp [decode_length_encoded_int, isProtocolError]

/-- The fixed 32-byte prefix of a handshake-response payload with all
capability bits clear: capabilities, max packet size, charset 33, and
the 23 reserved bytes. -/
def hsrNoCapsHeader : List Nat :=
  [0, 0, 0, 0, 0, 0, 0, 0, 33] ++ List.replicate 23 0

/-- C7 counterexample: parsing a handshake-response payload whose
null-terminated username field reaches end of payload (the bytes `AB`,
never terminated) does not fail — it succeeds with the silently
truncated username, contradicting the claim that it fails with a
`BadNTS` error. -/
theorem truncated_username_parse_succeeds_cex :
    parse_handshake_response truncatedHSR =
      .ok { username := [65, 66], auth_data := [], database := [],
            auth_plugin := [], capabilities := 0, max_packet_size := 0,
            charset := 33 } := by rfl

/-- C7 amended: a handshake-response packet whose null-terminated
username field reaches end of payload before a 0x00 terminator never
fails with a `BadNTS` error (no such failure mode exists in the code):
the read loop treats end of input like a terminator, so when the
truncated bytes decode as UTF-8 the parse succeeds with the silently
truncated value, and otherwise it fails with the `UnicodeDecodeError`
of the subsequent decode step, not `BadNTS`. -/
theorem truncated_username_silently_accepted (u : List Nat) (h0 : 0 ∉ u) :
    (utf8Decodable u = true →
      parse_handshake_response (hsrNoCapsHeader ++ u) =
        .ok { username := u, auth_data := [], database := [],
              auth_plugin := [], capabilities := 0, max_packet_size := 0,
              charset := 33 })
    ∧ (utf8Decodable u = false →
      parse_handshake_response (hsrNoCapsHeader ++ u) =
        .error .unicodeDecodeError) := by
  have hlist : hsrNoCapsHeader ++ u
      = 0 :: 0 :: 0 :: 0 :: 0 :: 0 :: 0 :: 0 :: 33 ::
        (List.replicate 23 0 ++ u) := by
    simp [hsrNoCapsHeader]
  have hdrop : (List.replicate 23 0 ++ u).drop 23 = u :=
    List.drop_left' (by simp)
  constructor
  · intro hdec
    rw [hlist]
    simp [parse_handshake_response, hdrop, readNTS_no_zero u h0, hdec,
      leVal, finishHandshakeResponse, readNTS]
  · intro hdec
    rw [hlist]
    simp [parse_handshake_response, hdrop, readNTS_no_zero u h0, hdec,
      leVal]

/-- Witness for the amended C7 theorem: the truncated ASCII username
`AB` parses to itself, and the truncated lone UTF-8 lead byte 0xC3
makes the parse fail with `UnicodeDecodeError`. -/
theorem truncated_username_silently_accepted_witness :
    ((0 : Nat) ∉ [65, 66] ∧ utf8Decodable [65, 66] = true
      ∧ parse_handshake_response (hsrNoCapsHeader ++ [65, 66]) =
          .ok { username := [65, 66], auth_data := [], database := [],
                auth_plugin := [], capabilities := 0, max_packet_size := 0,
                charset := 33 })
    ∧ ((0 : Nat) ∉ [195] ∧ utf8Decodable [195] = false
      ∧ parse_handshake_response (hsrNoCapsHeader ++ [195]) =
          .error .unicodeDecodeError) :=
  ⟨⟨by decide, by decide,
      (truncated_username_silently_accepted [65, 66] (by decide)).1 (by decide)⟩,
    ⟨by decide, by decide,
      (truncated_username_silently_accepted [195] (by decide)).2 (by decide)⟩⟩

/-- The record `parse_handshake_response` returns for `rootHSR` (also
when zero-padded to the read layer's inflated length). -/
def rootParsed : HandshakeResponse :=
  { username := utf8Bytes "root", auth_data := [], database := [],
    auth_plugin := [], capabilities := 0, max_packet_size := 0,
    charset := 33 }

theorem paddedLen_zero : paddedLen 0 0 0 = 13564092379824128 := by decide

/-- A packet body satisfying the read layer's inflated length that
carries the `root` handshake response: the trailing zero padding is
consumed as an empty null-terminated auth-data field and ignored. -/
def hsrRootBody : List Nat :=
  rootHSR ++ List.replicate (paddedLen 0 0 0 - 37) 0

/-- A packet body of the inflated length whose command byte is
COM_PING. -/
def pingBody : List Nat := 0x0e :: List.replicate (paddedLen 0 0 0 - 1) 0

/-- A packet body of the inflated length whose command byte is
COM_QUIT. -/
def quitBody : List Nat := 0x01 :: List.replicate (paddedLen 0 0 0 - 1) 0

theorem hsrRootBody_length : hsrRootBody.length = paddedLen 0 0 0 := by
  have h1 : rootHSR.length = 37 := by decide
  show (rootHSR ++ List.replicate (paddedLen 0 0 0 - 37) 0).length
    = paddedLen 0 0 0
  rw [List.length_append, List.length_replicate, h1, paddedLen_zero]

theorem pingBody_length : pingBody.length = paddedLen 0 0 0 := by
  show (0x0e :: List.replicate (paddedLen 0 0 0 - 1) 0).length
    = paddedLen 0 0 0
  rw [List.length_cons, List.length_replicate, paddedLen_zero]

theorem quitBody_length : quitBody.length = paddedLen 0 0 0 := by
  show (0x01 :: List.replicate (paddedLen 0 0 0 - 1) 0).length
    = paddedLen 0 0 0
  rw [List.length_cons, List.length_replicate, paddedLen_zero]

theorem read_packet_eq (b0 b1 b2 seq : Nat) (body rest : List Nat)
    (h : body.length = paddedLen b0 b1 b2) :
    read_packet (b0 :: b1 :: b2 :: seq :: (body ++ rest))
      = some ({ payload := body, sequence_id := seq }, rest) := by
  have hpad : utf8Bytes "\\x00" = [92, 120, 48, 48] := by decide
  have hpos : 0 < paddedLen b0 b1 b2 := by
    unfold paddedLen
    rw [hpad]
    simp only [List.cons_append, List.nil_append, leVal]
    omega
  have hle : paddedLen b0 b1 b2 ≤ (body ++ rest).length := by
    rw [List.length_append, ← h]
    omega
  simp only [read_packet]
  rw [if_pos hpos, if_pos hle, List.take_left' h, List.drop_left' h]

theorem read_packet_eq_nil (b0 b1 b2 seq : Nat) (body : List Nat)
    (h : body.length = paddedLen b0 b1 b2) :
    read_packet (b0 :: b1 :: b2 :: seq :: body)
      = some ({ payload := body, sequence_id := seq }, []) := by
  have h2 := read_packet_eq b0 b1 b2 seq body [] h
  simpa using h2

theorem handle_commands_read_none (cfg : Config) (st : SessionSt)
    (stream : List Nat) (h : read_packet stream = none) :
    handle_commands cfg st stream = ([], st) := by
  unfold handle_commands
  rw [h]

theorem handle_commands_read_some (cfg : Config) (st : SessionSt)
    (stream : List Nat) (p : Packet) (rest : List Nat)
    (hr : read_packet stream = some (p, rest))
    (hok : (process_command cfg st p.payload).2.2 = none) :
    handle_commands cfg st stream =
      ((process_command cfg st p.payload).1
          ++ (handle_commands cfg
              (process_command cfg st p.payload).2.1 rest).1,
        (handle_commands cfg
          (process_command cfg st p.payload).2.1 rest).2) := by
  conv_lhs => rw [handle_commands]
  split
  · rename_i heq
    rw [hr] at heq
    cases heq
  · rename_i pr heq
    rw [hr] at heq
    cases heq
    simp only [hok]

theorem handle_authentication_accepts (cfg : Config) (st : SessionSt)
    (stream : List Nat) (p : Packet) (rest : List Nat)
    (r : HandshakeResponse)
    (hr : read_packet stream = some (p, rest))
    (hp : parse_handshake_response p.payload = .ok r)
    (ha : authenticate_user cfg.users r.username r.auth_data = true) :
    handle_authentication cfg st stream
      = ([(build_ok 0 0 2 0 [] st.seq).1],
          { st with
              username := r.username,
              database := r.database,
              client_capabilities := r.capabilities,
              seq := (build_ok 0 0 2 0 [] st.seq).2,
              authenticated := true },
          rest, none) := by
  simp [handle_authentication, hr, hp, ha]

theorem handle_authentication_denies (cfg : Config) (st : SessionSt)
    (stream : List Nat) (p : Packet) (rest : List Nat)
    (r : HandshakeResponse)
    (hr : read_packet stream = some (p, rest))
    (hp : parse_handshake_response p.payload = .ok r)
    (ha : authenticate_user cfg.users r.username r.auth_data = false) :
    handle_authentication cfg st stream
      = ([(build_error 1045
            (utf8Bytes "Access denied for user '" ++ r.username ++ [39])
            (utf8Bytes "HY000") st.seq).1],
          { st with
              username := r.username,
              database := r.database,
              client_capabilities := r.capabilities,
              seq := (build_error 1045
                (utf8Bytes "Access denied for user '" ++ r.username ++ [39])
                (utf8Bytes "HY000") st.seq).2 },
          rest,
          some (.authenticationError
            (utf8Bytes "Authentication failed for user: " ++ r.username))) := by
  simp [handle_authentication, hr, hp, ha]

theorem handle_connection_auth_ok (cfg : Config) (cid : Nat)
    (stream : List Nat) (authP : List Packet) (st2 : SessionSt)
    (rest : List Nat)
    (ha : handle_authentication cfg
        { seq := 1, authenticated := false, username := [], database := [],
          client_capabilities := 0 } stream = (authP, st2, rest, none)) :
    handle_connection cfg cid stream
      = (build_handshake cfg.server_version cid default_auth_plugin 0).1
          :: (authP ++ (handle_commands cfg st2 rest).1) := by
  simp [handle_connection, build_handshake, next_sequence_id, ha]

theorem handle_connection_auth_err (cfg : Config) (cid : Nat)
    (stream : List Nat) (authP : List Packet) (st2 : SessionSt)
    (rest : List Nat) (e : SessionError)
    (ha : handle_authentication cfg
        { seq := 1, authenticated := false, username := [], database := [],
          client_capabilities := 0 } stream = (authP, st2, rest, some e)) :
    handle_connection cfg cid stream
      = (build_handshake cfg.server_version cid default_auth_plugin 0).1
          :: (authP ++ [(build_error 1105
              (utf8Bytes "Internal error: " ++ e.rendered)
              (utf8Bytes "HY000") st2.seq).1]) := by
  simp [handle_connection, build_handshake, next_sequence_id, ha]

/-- Parsing the `root` handshake response with any amount of zero
padding appended (as the read layer's inflated packet length forces)
succeeds with the same record as the unpadded response. -/
theorem parse_rootHSR_padded (k : Nat) :
    parse_handshake_response (rootHSR ++ List.replicate k 0) =
      .ok rootParsed := by
  cases k with
  | zero =>
    simp only [List.replicate, List.append_nil]
    rfl
  | succ n =>
    have hshape : rootHSR ++ List.replicate (n + 1) 0
        = 0 :: 0 :: 0 :: 0 :: 0 :: 0 :: 0 :: 0 :: 33 ::
          (List.replicate 23 0
            ++ (utf8Bytes "root" ++ 0 :: List.replicate (n + 1) 0)) := by
      simp [rootHSR, List.append_assoc]
    have hdrop : (List.replicate 23 0
        ++ (utf8Bytes "root" ++ 0 :: List.replicate (n + 1) 0)).drop 23
        = utf8Bytes "root" ++ 0 :: List.replicate (n + 1) 0 :=
      List.drop_left' (by simp)
    have hnts := readNTS_append_zero (utf8Bytes "root")
      (List.replicate (n + 1) 0) (by decide)
    have hnts2 : readNTS (List.replicate (n + 1) 0)
        = ([], List.replicate n 0) := by
      simp [List.replicate_succ, readNTS]
    have hdec : utf8Decodable (utf8Bytes "root") = true := by decide
    rw [hshape]
    simp [parse_handshake_response, hdrop, hnts, hnts2, hdec, leVal,
      finishHandshakeResponse, rootParsed]

theorem parse_hsrRootBody : parse_handshake_response hsrRootBody =
    .ok rootParsed :=
  parse_rootHSR_padded (paddedLen 0 0 0 - 37)

/-- The client bytes of an authenticated root session followed by one
COM_PING command, each packet body padded to the inflated length the
read layer demands. -/
def c2Stream : List Nat :=
  0 :: 0 :: 0 :: 1 :: (hsrRootBody ++ (0 :: 0 :: 0 :: 0 :: pingBody))

/-- The client bytes of a COM_QUIT command followed by a COM_PING
command (as read by an already-authenticated command loop), each padded
to the inflated length. -/
def c3Stream : List Nat :=
  0 :: 0 :: 0 :: 0 :: (quitBody ++ (0 :: 0 :: 0 :: 1 :: pingBody))

/-- The client bytes of a root handshake response (padded to the
inflated length) presented to a server with an empty users registry. -/
def c4Stream : List Nat := 0 :: 0 :: 0 :: 1 :: hsrRootBody

/-- C3 counterexample: in an authenticated session whose client sends
COM_QUIT followed by COM_PING, the command loop does not exit at the
COM_QUIT — it reads the following COM_PING and answers it with an OK
packet, contradicting the claim that after COM_QUIT the session leaves
the command loop and performs no further reads of client commands. -/
theorem quit_then_ping_still_answered_cex :
    (handle_commands rootConfig readyState c3Stream).1 =
      [{ payload := [0, 0, 0, 2, 0, 0, 0], sequence_id := 2 }] := by
  have r1 : read_packet c3Stream
      = some ({ payload := quitBody, sequence_id := 0 },
          0 :: 0 :: 0 :: 1 :: pingBody) :=
    read_packet_eq 0 0 0 0 quitBody _ quitBody_length
  have r2 : read_packet (0 :: 0 :: 0 :: 1 :: pingBody)
      = some ({ payload := pingBody, sequence_id := 1 }, []) :=
    read_packet_eq_nil 0 0 0 1 pingBody pingBody_length
  have pq : process_command rootConfig readyState quitBody
      = ([], readyState, none) := by
    simp [quitBody, process_command]
  have pp : process_command rootConfig readyState pingBody
      = ([{ payload := [0, 0, 0, 2, 0, 0, 0], sequence_id := 2 }],
          { seq := 3, authenticated := true, username := utf8Bytes "root",
            database := [], client_capabilities := 0 }, none) := by
    simp [pingBody, process_command, build_ok, next_sequence_id,
      encode_length_encoded_int, leBytes, readyState]
  have s1 : handle_commands rootConfig readyState
      (0 :: 0 :: 0 :: 1 :: pingBody)
      = ([{ payload := [0, 0, 0, 2, 0, 0, 0], sequence_id := 2 }],
          { seq := 3, authenticated := true, username := utf8Bytes "root",
            database := [], client_capabilities := 0 }) := by
    rw [handle_commands_read_some _ _ _ _ _ r2
      (by show (process_command rootConfig readyState pingBody).2.2 = none
          rw [pp])]
    simp [pp, handle_commands_read_none _ _ ([] : List Nat) rfl]
  rw [handle_commands_read_some _ _ _ _ _ r1
    (by show (process_command rootConfig readyState quitBody).2.2 = none
        rw [pq])]
  simp [pq, s1]

/-- C3 amended: when an authenticated client sends a COM_QUIT command
packet (which, given the read layer's over-escaped length pad, the
server only receives from a client that supplies the inflated padded
number of body bytes), the server writes no response packet for it and
the session state is unchanged, but the command loop is not left: the
loop continues on the remaining client bytes exactly as if the COM_QUIT
packet had not been sent, and is only torn down when no further packet
can be read (the client closed). -/
theorem quit_writes_nothing_and_loop_continues (cfg : Config)
    (st : SessionSt) (b0 b1 b2 seq : Nat) (extra rest : List Nat)
    (hlen : (0x01 :: extra).length = paddedLen b0 b1 b2) :
    process_command cfg st (0x01 :: extra) = ([], st, none)
    ∧ handle_commands cfg st
        (b0 :: b1 :: b2 :: seq :: ((0x01 :: extra) ++ rest))
      = handle_commands cfg st rest := by
  constructor
  · simp [process_command]
  · have hread := read_packet_eq b0 b1 b2 seq (0x01 :: extra) rest hlen
    rw [handle_commands_read_some _ _ _ _ _ hread
      (by show (process_command cfg st (0x01 :: extra)).2.2 = none
          simp [process_command])]
    simp [process_command]

/-- Witness for the amended C3 theorem: a concrete COM_QUIT packet of
the inflated length, followed by nothing, in an authenticated root
session. -/
theorem quit_writes_nothing_and_loop_continues_witness :
    quitBody.length = paddedLen 0 0 0
    ∧ (process_command rootConfig readyState quitBody
        = ([], readyState, none)
      ∧ handle_commands rootConfig readyState
          (0 :: 0 :: 0 :: 9 :: (quitBody ++ []))
        = handle_commands rootConfig readyState []) :=
  ⟨quitBody_length,
    quit_writes_nothing_and_loop_continues rootConfig readyState 0 0 0 9
      (List.replicate (paddedLen 0 0 0 - 1) 0) [] quitBody_length⟩

set_option maxRecDepth 20000 in
/-- C5: for COM_QUERY `SHOW DATABASES` with no external query handler,
the server does emit exactly 7 packets in the claimed order — but the
first packet's payload is not the LEI column count 1 (which encodes as
the single byte 0x01): it is the four ASCII bytes 92, 120, 48, 49 — the
literal text backslash-x-0-1 — because the source builds it from the
over-escaped bytes literal written with a doubled backslash.  The
column-definition packet names SCHEMA_NAME, the EOFs and the three rows
are as claimed. -/
theorem show_databases_first_packet_not_lei_count :
    (process_command rootConfig readyState
        (3 :: utf8Bytes "SHOW DATABASES")).1.length = 7
    ∧ ((process_command rootConfig readyState
        (3 :: utf8Bytes "SHOW DATABASES")).1.map Packet.payload) =
      [ [92, 120, 48, 49],
        utf8Bytes ("def\\x00information_schema\\x00SCHEMATA\\x00SCHEMATA\\x00"
          ++ "SCHEMA_NAME\\x00SCHEMA_NAME\\x00\\x0c!\\x00\\x00\\x02\\x00\\x00"
          ++ "\\xfd\\x01\\x00\\x1f\\x00\\x00"),
        [254, 0, 0, 2, 0],
        18 :: utf8Bytes "information_schema",
        5 :: utf8Bytes "hchdb",
        4 :: utf8Bytes "test",
        [254, 0, 0, 2, 0] ]
    ∧ encode_length_encoded_int 1 = [1]
    ∧ ([92, 120, 48, 49] : List Nat) ≠ [1]
    ∧ containsBytes (utf8Bytes "SCHEMA_NAME")
        (utf8Bytes ("def\\x00information_schema\\x00SCHEMATA\\x00SCHEMATA\\x00"
          ++ "SCHEMA_NAME\\x00SCHEMA_NAME\\x00\\x0c!\\x00\\x00\\x02\\x00\\x00"
          ++ "\\xfd\\x01\\x00\\x1f\\x00\\x00")) = true := by
  refine ⟨by rfl, by rfl, by rfl, by decide, by decide⟩

/-- C2: the builder's counter is never reset at the start of a command
round-trip — `PacketBuilder.reset_sequence` exists but no call site in
the session ever invokes it — so in a session that completes the
handshake (sequence 0) and the authentication OK (sequence 1), the
single response packet to the first inbound command (a COM_PING) is
emitted with sequence id 2, not 1 as the claim requires.  The client
bytes are `c2Stream`, whose packet bodies carry the zero padding the
read layer's over-escaped length pad demands. -/
theorem first_command_response_has_sequence_two :
    (handle_connection rootConfig 1 c2Stream).map Packet.sequence_id
      = [0, 1, 2]
    ∧ ((handle_connection rootConfig 1 c2Stream).map
        Packet.payload)[2]? = some [0, 0, 0, 2, 0, 0, 0] := by
  have r1 : read_packet c2Stream
      = some ({ payload := hsrRootBody, sequence_id := 1 },
          0 :: 0 :: 0 :: 0 :: pingBody) :=
    read_packet_eq 0 0 0 1 hsrRootBody _ hsrRootBody_length
  have r2 : read_packet (0 :: 0 :: 0 :: 0 :: pingBody)
      = some ({ payload := pingBody, sequence_id := 0 }, []) :=
    read_packet_eq_nil 0 0 0 0 pingBody pingBody_length
  have hauth : authenticate_user rootConfig.users rootParsed.username
      rootParsed.auth_data = true := by decide
  have ha := handle_authentication_accepts rootConfig
    { seq := 1, authenticated := false, username := [], database := [],
      client_capabilities := 0 }
    c2Stream { payload := hsrRootBody, sequence_id := 1 }
    (0 :: 0 :: 0 :: 0 :: pingBody) rootParsed r1 parse_hsrRootBody hauth
  have ha' : handle_authentication rootConfig
      { seq := 1, authenticated := false, username := [], database := [],
        client_capabilities := 0 } c2Stream
      = ([{ payload := [0, 0, 0, 2, 0, 0, 0], sequence_id := 1 }],
          { seq := 2, authenticated := true, username := utf8Bytes "root",
            database := [], client_capabilities := 0 },
          0 :: 0 :: 0 :: 0 :: pingBody, none) := by
    rw [ha]
    rfl
  have pp : process_command rootConfig
      { seq := 2, authenticated := true, username := utf8Bytes "root",
        database := [], client_capabilities := 0 } pingBody
      = ([{ payload := [0, 0, 0, 2, 0, 0, 0], sequence_id := 2 }],
          { seq := 3, authenticated := true, username := utf8Bytes "root",
            database := [], client_capabilities := 0 }, none) := by
    simp [pingBody, process_command, build_ok, next_sequence_id,
      encode_length_encoded_int, leBytes]
  have hc : handle_commands rootConfig
      { seq := 2, authenticated := true, username := utf8Bytes "root",
        database := [], client_capabilities := 0 }
      (0 :: 0 :: 0 :: 0 :: pingBody)
      = ([{ payload := [0, 0, 0, 2, 0, 0, 0], sequence_id := 2 }],
          { seq := 3, authenticated := true, username := utf8Bytes "root",
            database := [], client_capabilities := 0 }) := by
    rw [handle_commands_read_some _ _ _ _ _ r2
      (by show (process_command rootConfig
            { seq := 2, authenticated := true,
              username := utf8Bytes "root", database := [],
              client_capabilities := 0 } pingBody).2.2 = none
          rw [pp])]
    simp [pp, handle_commands_read_none _ _ ([] : List Nat) rfl]
  have hfull := handle_connection_auth_ok rootConfig 1 c2Stream _ _ _ ha'
  rw [hc] at hfull
  rw [hfull]
  refine ⟨by decide, by decide⟩

/-- C4 counterexample: on an authentication failure (user `root`
against an empty users registry, the handshake response delivered in a
packet body padded to the read layer's inflated length) the ERR 1045
packet is not the last packet the server writes: it is followed by one
more packet, an ERR with code 1105 (`Internal error: ...`), produced by
the generic exception handler in `handle_connection` after the
`AuthenticationError` is re-raised.  Error codes are read from payload
bytes 1-2 (little-endian after the 0xFF marker): 1045 = bytes 21, 4 and
1105 = bytes 81, 4. -/
theorem access_denied_not_last_packet_cex :
    (handle_connection noUsersConfig 1 c4Stream).map Packet.sequence_id
      = [0, 1, 2]
    ∧ ((handle_connection noUsersConfig 1 c4Stream).map
        (fun p => p.payload.take 3))[1]? = some [255, 21, 4]
    ∧ ((handle_connection noUsersConfig 1 c4Stream).map
        (fun p => p.payload.take 3))[2]? = some [255, 81, 4]
    ∧ ((handle_connection noUsersConfig 1 c4Stream).map
        (fun p => p.payload.take 3)).getLast? ≠ some [255, 21, 4] := by
  have r1 : read_packet c4Stream
      = some ({ payload := hsrRootBody, sequence_id := 1 }, []) :=
    read_packet_eq_nil 0 0 0 1 hsrRootBody hsrRootBody_length
  have hauth : authenticate_user noUsersConfig.users rootParsed.username
      rootParsed.auth_data = false := by decide
  have ha := handle_authentication_denies noUsersConfig
    { seq := 1, authenticated := false, username := [], database := [],
      client_capabilities := 0 }
    c4Stream { payload := hsrRootBody, sequence_id := 1 } [] rootParsed
    r1 parse_hsrRootBody hauth
  have ha' : handle_authentication noUsersConfig
      { seq := 1, authenticated := false, username := [], database := [],
        client_capabilities := 0 } c4Stream
      = ([(build_error 1045
            (utf8Bytes "Access denied for user '" ++ utf8Bytes "root"
              ++ [39]) (utf8Bytes "HY000") 1).1],
          { seq := 2, authenticated := false,
            username := utf8Bytes "root", database := [],
            client_capabilities := 0 },
          [],
          some (.authenticationError
            (utf8Bytes "Authentication failed for user: "
              ++ utf8Bytes "root"))) := by
    rw [ha]
    rfl
  have hfull := handle_connection_auth_err noUsersConfig 1 c4Stream _ _ _ _
    ha'
  rw [hfull]
  refine ⟨by decide, by decide, by decide, by decide⟩

/-- C4 amended: an authentication failure — which presupposes that a
handshake-response packet was actually delivered, i.e. the client
supplied the inflated padded body length the read layer demands, the
payload parsed, and `_authenticate_user` rejected it — makes the
server send the ERR 1045 `Access denied for user '<u>'` packet, then,
because the `AuthenticationError` is re-raised and caught by the
generic exception handler, exactly one further packet: an ERR 1105
whose message renders that exception.  Then the connection is closed:
whatever else the client sent, nothing is written after the 1105 ERR,
and the 1045 ERR is the second-to-last packet. -/
theorem auth_failure_emits_1045_then_1105 (cfg : Config) (cid : Nat)
    (b0 b1 b2 seq : Nat) (body rest : List Nat) (r : HandshakeResponse)
    (hlen : body.length = paddedLen b0 b1 b2)
    (hp : parse_handshake_response body = .ok r)
    (hauth : authenticate_user cfg.users r.username r.auth_data = false) :
    handle_connection cfg cid (b0 :: b1 :: b2 :: seq :: (body ++ rest)) =
      [(build_handshake cfg.server_version cid default_auth_plugin 0).1,
       (build_error 1045
          (utf8Bytes "Access denied for user '" ++ r.username ++ [39])
          (utf8Bytes "HY000") 1).1,
       (build_error 1105
          (utf8Bytes "Internal error: [1003] Authentication failed for user: "
            ++ r.username)
          (utf8Bytes "HY000") 2).1] := by
  have hread := read_packet_eq b0 b1 b2 seq body rest hlen
  have hmsg : ∀ u : List Nat,
      utf8Bytes "Internal error: " ++ (utf8Bytes "[1003] "
        ++ (utf8Bytes "Authentication failed for user: " ++ u))
      = utf8Bytes "Internal error: [1003] Authentication failed for user: "
        ++ u := by
    intro u
    rw [← List.append_assoc, ← List.append_assoc]
    congr 1
  simp [handle_connection, handle_authentication, hread, hp, hauth,
    SessionError.rendered, next_sequence_id, hmsg, build_error,
    build_handshake]

/-- Witness for the amended C4 theorem on the concrete failing-auth
session: the padded root handshake response against an empty users
registry. -/
theorem auth_failure_emits_1045_then_1105_witness :
    hsrRootBody.length = paddedLen 0 0 0
    ∧ parse_handshake_response hsrRootBody = .ok rootParsed
    ∧ authenticate_user noUsersConfig.users rootParsed.username
        rootParsed.auth_data = false
    ∧ handle_connection noUsersConfig 1
        (0 :: 0 :: 0 :: 1 :: (hsrRootBody ++ ([] : List Nat))) =
      [(build_handshake noUsersConfig.server_version 1 default_auth_plugin 0).1,
       (build_error 1045
          (utf8Bytes "Access denied for user '" ++ rootParsed.username ++ [39])
          (utf8Bytes "HY000") 1).1,
       (build_error 1105
          (utf8Bytes "Internal error: [1003] Authentication failed for user: "
            ++ rootParsed.username)
          (utf8Bytes "HY000") 2).1] :=
  ⟨hsrRootBody_length, parse_hsrRootBody, by decide,
    auth_failure_emits_1045_then_1105 noUsersConfig 1 0 0 0 1 hsrRootBody []
      rootParsed hsrRootBody_length parse_hsrRootBody (by decide)⟩

theorem managerStep_max (st : ManagerState) (e : ManagerEvent) :
    (managerStep st e).max_connections = st.max_connections := by
  cases e with
  | connect =>
    simp only [managerStep, handle_new_connection]
    split <;> rfl
  | disconnect cid => rfl

theorem managerStep_inv (st : ManagerState) (e : ManagerEvent)
    (h : st.connections.length ≤ st.max_connections) :
    (managerStep st e).connections.length
      ≤ (managerStep st e).max_connections := by
  cases e with
  | connect =>
    simp only [managerStep, handle_new_connection]
    split
    · simpa using h
    · rename_i hlt
      simp only [not_le] at hlt
      simpa using hlt
  | disconnect cid =>
    simp only [managerStep, cleanup_connection]
    exact le_trans (List.length_filter_le _ _) h

theorem foldl_manager_inv (evs : List ManagerEvent) (st : ManagerState)
    (h : st.connections.length ≤ st.max_connections) :
    (evs.foldl managerStep st).connections.length
      ≤ (evs.foldl managerStep st).max_connections := by
  induction evs generalizing st with
  | nil => simpa using h
  | cons e evs ih => exact ih _ (managerStep_inv st e h)

theorem foldl_manager_max (evs : List ManagerEvent) (st : ManagerState) :
    (evs.foldl managerStep st).max_connections = st.max_connections := by
  induction evs generalizing st with
  | nil => rfl
  | cons e evs ih => rw [List.foldl_cons, ih, managerStep_max]

/-- C8: when the tracked connection count already equals
`max_connections`, `handle_new_connection` closes the socket without
spawning a handler (so no handshake packet is ever written for it),
increments the rejected counter by exactly 1, and leaves the
connections map and the next connection id unchanged; and from startup,
after any sequence of admissions and cleanups, the number of tracked
connections never exceeds the configured maximum. -/
theorem admission_rejects_at_cap (st : ManagerState) (m : Nat)
    (evs : List ManagerEvent)
    (h : st.connections.length = st.max_connections) :
    handle_new_connection st =
      ({ st with rejected_connections := st.rejected_connections + 1 }, none)
    ∧ (runManager m evs).connections.length ≤ m := by
  constructor
  · simp [handle_new_connection, h]
  · have h0 : (initManager m).connections.length
        ≤ (initManager m).max_connections := by
      simp [initManager]
    have hinv := foldl_manager_inv evs (initManager m) h0
    have hmax := foldl_manager_max evs (initManager m)
    have hm : (initManager m).max_connections = m := rfl
    rw [hm] at hmax
    simp only [runManager]
    omega

/-- A manager state at its cap: one tracked connection, maximum 1. -/
def capManagerState : ManagerState :=
  { connections :=
      [(1, { connection_id := 1, username := [], database := [],
             query_count := 0 })],
    next_connection_id := 2,
    total_connections := 1,
    rejected_connections := 0,
    max_connections := 1 }

/-- Witness for C8 at a concrete at-cap state and a concrete event
sequence of three connection attempts against a cap of 1. -/
theorem admission_rejects_at_cap_witness :
    capManagerState.connections.length = capManagerState.max_connections
    ∧ (handle_new_connection capManagerState =
        ({ capManagerState with
            rejected_connections := capManagerState.rejected_connections + 1 },
          none)
      ∧ (runManager 1 [.connect, .connect, .connect]).connections.length ≤ 1) :=
  ⟨by rfl,
    admission_rejects_at_cap capManagerState 1 [.connect, .connect, .connect]
      (by rfl)⟩

/-- The handshake payload built from an initial builder (sequence 0),
the object of the layout claim. -/
def handshakePayload (v plugin : String) (cid : Nat) : List Nat :=
  (build_handshake v cid plugin 0).1.payload

/-- The bytes of the handshake payload after the protocol byte and the
null-terminated server version. -/
def handshakeAfterVersion (v plugin : String) (cid : Nat) : List Nat :=
  (readNTS ((handshakePayload v plugin cid).drop 1)).2

theorem handshakePayload_shape (v plugin : String) (cid : Nat) :
    handshakePayload v plugin cid
      = 10 :: (utf8Bytes v ++ 0 :: (leBytes 4 cid ++
          ([49, 50, 51, 52, 53, 54, 55, 56, 0, 255, 255, 33, 2, 0, 255, 1,
            21, 0, 0, 0, 0, 0, 0, 0, 0, 0, 0,
            57, 48, 49, 50, 51, 52, 53, 54, 55, 56, 57, 48, 0]
            ++ (utf8Bytes plugin ++ [0])))) := by
  have e1 : utf8Bytes "12345678" = [49, 50, 51, 52, 53, 54, 55, 56] := by
    decide
  have e2 : leBytes 2 capabilities_low = [255, 255] := by decide
  have e3 : leBytes 2 2 = [2, 0] := by decide
  have e4 : leBytes 2 capabilities_high = [255, 1] := by decide
  have e5 : List.replicate 10 (0 : Nat) = [0, 0, 0, 0, 0, 0, 0, 0, 0, 0] := by
    decide
  have e6 : utf8Bytes "901234567890"
      = [57, 48, 49, 50, 51, 52, 53, 54, 55, 56, 57, 48] := by decide
  simp [handshakePayload, build_handshake, e1, e2, e3, e4, e5, e6,
    List.append_assoc]

/-- C9: the handshake payload starts with the 0x0A protocol byte
followed by the server version as a null-terminated string; the next 4
bytes are the connection id little-endian; at fixed offsets after that
sit the low and high capability halves; the payload ends with the auth
plugin name as the trailing null-terminated string; the 32-bit
capability word assembled from the two halves includes PROTOCOL_41,
SECURE_CONNECTION, CONNECT_WITH_DB and PLUGIN_AUTH; and the plugin
name defaults to `mysql_native_password`. -/
theorem build_handshake_layout (v plugin : String) (cid : Nat)
    (hv : (0 : Nat) ∉ utf8Bytes v) (hcid : cid < 2 ^ 32) :
    (handshakePayload v plugin cid).head? = some 10
    ∧ (readNTS ((handshakePayload v plugin cid).drop 1)).1 = utf8Bytes v
    ∧ leVal ((handshakeAfterVersion v plugin cid).take 4) = cid
    ∧ leVal (((handshakeAfterVersion v plugin cid).drop 13).take 2)
        = capabilities_low
    ∧ leVal (((handshakeAfterVersion v plugin cid).drop 18).take 2)
        = capabilities_high
    ∧ (handshakeAfterVersion v plugin cid).drop 44 = utf8Bytes plugin ++ [0]
    ∧ (capabilities_low ||| capabilities_high <<< 16) &&& 0x0200 = 0x0200
    ∧ (capabilities_low ||| capabilities_high <<< 16) &&& 0x8000 = 0x8000
    ∧ (capabilities_low ||| capabilities_high <<< 16) &&& 0x0008 = 0x0008
    ∧ (capabilities_low ||| capabilities_high <<< 16) &&& 0x80000 = 0x80000
    ∧ default_auth_plugin = "mysql_native_password" := by
  have h1 := handshakePayload_shape v plugin cid
  have h2 : (handshakePayload v plugin cid).drop 1
      = utf8Bytes v ++ 0 :: (leBytes 4 cid ++
          ([49, 50, 51, 52, 53, 54, 55, 56, 0, 255, 255, 33, 2, 0, 255, 1,
            21, 0, 0, 0, 0, 0, 0, 0, 0, 0, 0,
            57, 48, 49, 50, 51, 52, 53, 54, 55, 56, 57, 48, 0]
            ++ (utf8Bytes plugin ++ [0]))) := by
    rw [h1]
    rfl
  have h3 := readNTS_append_zero (utf8Bytes v)
    (leBytes 4 cid ++
      ([49, 50, 51, 52, 53, 54, 55, 56, 0, 255, 255, 33, 2, 0, 255, 1,
        21, 0, 0, 0, 0, 0, 0, 0, 0, 0, 0,
        57, 48, 49, 50, 51, 52, 53, 54, 55, 56, 57, 48, 0]
        ++ (utf8Bytes plugin ++ [0]))) hv
  have h4 : handshakeAfterVersion v plugin cid
      = leBytes 4 cid ++
          ([49, 50, 51, 52, 53, 54, 55, 56, 0, 255, 255, 33, 2, 0, 255, 1,
            21, 0, 0, 0, 0, 0, 0, 0, 0, 0, 0,
            57, 48, 49, 50, 51, 52, 53, 54, 55, 56, 57, 48, 0]
            ++ (utf8Bytes plugin ++ [0])) := by
    rw [handshakeAfterVersion, h2, h3]
  have hle4 : leBytes 4 cid
      = [cid % 256, cid / 256 % 256, cid / 256 / 256 % 256,
         cid / 256 / 256 / 256 % 256] := by
    simp [leBytes]
  refine ⟨?_, ?_, ?_, ?_, ?_, ?_, by decide, by decide, by decide, by decide,
    rfl⟩
  · rw [h1]; rfl
  · rw [h2, h3]
  · rw [h4, hle4]
    simp [leVal]
    omega
  · rw [h4, hle4]
    simp [leVal, capabilities_low]
  · rw [h4, hle4]
    simp [leVal, capabilities_high]
  · rw [h4, hle4]
    simp

/-- Witness for C9 at the defaults the session uses: version
`8.0.0-hchdb`, connection id 1, plugin `mysql_native_password`. -/
theorem build_handshake_layout_witness :
    ((0 : Nat) ∉ utf8Bytes "8.0.0-hchdb" ∧ (1 : Nat) < 2 ^ 32)
    ∧ ((handshakePayload "8.0.0-hchdb" "mysql_native_password" 1).head?
        = some 10
      ∧ (readNTS ((handshakePayload "8.0.0-hchdb" "mysql_native_password"
          1).drop 1)).1 = utf8Bytes "8.0.0-hchdb"
      ∧ leVal ((handshakeAfterVersion "8.0.0-hchdb" "mysql_native_password"
          1).take 4) = 1
      ∧ leVal (((handshakeAfterVersion "8.0.0-hchdb" "mysql_native_password"
          1).drop 13).take 2) = capabilities_low
      ∧ leVal (((handshakeAfterVersion "8.0.0-hchdb" "mysql_native_password"
          1).drop 18).take 2) = capabilities_high
      ∧ (handshakeAfterVersion "8.0.0-hchdb" "mysql_native_password" 1).drop 44
          = utf8Bytes "mysql_native_password" ++ [0]
      ∧ (capabilities_low ||| capabilities_high <<< 16) &&& 0x0200 = 0x0200
      ∧ (capabilities_low ||| capabilities_high <<< 16) &&& 0x8000 = 0x8000
      ∧ (capabilities_low ||| capabilities_high <<< 16) &&& 0x0008 = 0x0008
      ∧ (capabilities_low ||| capabilities_high <<< 16) &&& 0x80000 = 0x80000
      ∧ default_auth_plugin = "mysql_native_password") :=
  ⟨⟨by decide, by norm_num⟩,
    build_handshake_layout "8.0.0-hchdb" "mysql_native_password" 1
      (by decide) (by norm_num)⟩

end HchDB
